import Mathlib

/-!
Shallow embedding of the clipdeck notification-service core: the
Notification Store CRUD layer, the multi-channel Delivery Coordinator
with its two channel strategies, and the Event Router handlers.
Each definition mirrors one function of the TypeScript source; theorems
settle the specification claims about them.
-/

namespace NotificationService

/-- Closed enumeration of notification kinds, as in the Prisma
NotificationType enum referenced by the source. -/
inductive NotificationType
  | CLIP_APPROVED
  | CLIP_REJECTED
  | CAMPAIGN_ACCEPTED
  | CAMPAIGN_REJECTED
  | CAMPAIGN_ENDING
  | CAMPAIGN_ENDED
  | NEW_CAMPAIGN
  | STUDIO_INVITE
  | CLIP_MILESTONE
  | PAYMENT_COMPLETED
  | PAYMENT_CREDITED
  | PAYMENT_PROCESSING
  | PAYMENT_ERROR
  | SYSTEM_ALERT
  | DISCORD_DISCONNECTED
  | WALLET_NOT_CONFIGURED
  | PROFILE_INCOMPLETE
  deriving DecidableEq, Repr

/-- A metadata value: the source stores arbitrary JSON; the handlers only
ever put strings and integers into it. -/
inductive MetaVal
  | s (v : String)
  | n (v : Nat)
  deriving DecidableEq, Repr

/-- A stored notification record (the Prisma notification row). -/
structure Notification where
  id : String
  userId : String
  type : NotificationType
  title : String
  message : Option String
  link : Option String
  metadata : Option (List (String × MetaVal))
  isRead : Bool
  createdAt : Nat
  deriving DecidableEq, Repr

/-- The Notification Store contents: the set of rows, as a list. -/
abbrev Store := List Notification

/-- Service-level errors thrown by the notification service
(notFound and forbidden in the source errors module). -/
inductive ServiceErr
  | notFound
  | forbidden
  deriving DecidableEq, Repr

/-- Embeds createNotification: inserts a fresh row with the given fields,
isRead defaulting to false. The row id and createdAt timestamp are
assigned by the store and passed here explicitly. -/
def createNotification (store : Store) (newId : String) (now : Nat)
    (userId : String) (type : NotificationType) (title : String)
    (message : Option String) (link : Option String)
    (metadata : Option (List (String × MetaVal))) : Store × Notification :=
  let notification : Notification :=
    { id := newId, userId := userId, type := type, title := title,
      message := message, link := link, metadata := metadata,
      isRead := false, createdAt := now }
  (store ++ [notification], notification)

/-- Embeds getUnreadCount: count of rows where userId matches and
isRead is false. -/
def getUnreadCount (store : Store) (userId : String) : Nat :=
  (store.filter (fun n => n.userId == userId && !n.isRead)).length

/-- Insertion step for descending sort by createdAt (newest first), used
to model the orderBy createdAt desc of getNotifications. -/
def insertDesc (n : Notification) : List Notification → List Notification
  | [] => [n]
  | m :: ms => if n.createdAt ≥ m.createdAt then n :: m :: ms else m :: insertDesc n ms

/-- Sort by createdAt descending (orderBy createdAt desc). -/
def sortDesc : List Notification → List Notification
  | [] => []
  | n :: ns => insertDesc n (sortDesc ns)

/-- The shape of the getNotifications result. -/
structure NotificationPage where
  notifications : List Notification
  total : Nat
  limit : Nat
  offset : Nat
  deriving DecidableEq, Repr

/-- Embeds getNotifications: the page is the rows of the user ordered by
createdAt descending, skipping offset rows and taking limit rows; total
is the count of all rows of the user, independent of the page bounds. -/
def getNotifications (store : Store) (userId : String) (limit : Nat) (offset : Nat) :
    NotificationPage :=
  let mine := store.filter (fun n => n.userId == userId)
  { notifications := ((sortDesc mine).drop offset).take limit,
    total := mine.length,
    limit := limit,
    offset := offset }

/-- Embeds markAsRead: findUnique by id; throw notFound when absent,
forbidden when owned by another user; otherwise update the row setting
isRead to true and return the updated record. The returned store is
unchanged on either error. -/
def markAsRead (store : Store) (userId : String) (notificationId : String) :
    Store × Except ServiceErr Notification :=
  match store.find? (fun n => n.id == notificationId) with
  | none => (store, Except.error ServiceErr.notFound)
  | some n =>
    if n.userId ≠ userId then (store, Except.error ServiceErr.forbidden)
    else
      (store.map (fun m => if m.id == notificationId then { m with isRead := true } else m),
       Except.ok { n with isRead := true })

/-- Embeds markAllAsRead: updateMany setting isRead to true on every row
of the user with isRead false; returns the count of rows matched. -/
def markAllAsRead (store : Store) (userId : String) : Store × Nat :=
  ((store.map (fun n => if n.userId == userId && !n.isRead then { n with isRead := true } else n)),
   (store.filter (fun n => n.userId == userId && !n.isRead)).length)

/-- Embeds deleteNotification: findUnique by id; throw notFound when
absent, forbidden when owned by another user; otherwise delete the row. -/
def deleteNotification (store : Store) (userId : String) (notificationId : String) :
    Store × Except ServiceErr Unit :=
  match store.find? (fun n => n.id == notificationId) with
  | none => (store, Except.error ServiceErr.notFound)
  | some n =>
    if n.userId ≠ userId then (store, Except.error ServiceErr.forbidden)
    else (store.filter (fun m => m.id != notificationId), Except.ok ())

/-- A thrown JavaScript value as observed by a catch block: either an
Error instance carrying a message, or some other value. -/
inductive JsError
  | jsError (msg : String)
  | nonError
  deriving DecidableEq, Repr

/-- The message a catch block extracts from a thrown value:
error instanceof Error ? error.message : the Unknown error fallback. -/
def messageOf : JsError → String
  | JsError.jsError msg => msg
  | JsError.nonError => "Unknown error"

/-- JavaScript truthiness of an optional string: undefined and the empty
string are falsy, every other string is truthy. -/
def strTruthy : Option String → Bool
  | none => false
  | some s => s != ""

/-- The transient unit handed to the Delivery Coordinator
(the DeliveryPayload interface of the source). -/
structure DeliveryPayload where
  userId : String
  type : NotificationType
  title : String
  message : Option String
  link : Option String
  metadata : Option (List (String × MetaVal))
  deriving DecidableEq, Repr

/-- The environment a single deliver call runs in: the configured
messaging endpoint (config.discordServiceUrl) and the outcome of the two
external effects, abstracted as succeeding or throwing a value — the
Notification Store create call backing the in_app channel, and the
outbound HTTP post backing the discord channel. -/
structure DeliveryEnv where
  discordServiceUrl : Option String
  storeResult : Option JsError
  httpResult : Option JsError
  deriving DecidableEq, Repr

/-- One per-channel result record of the coordinator. -/
structure DeliveryOutcome where
  channel : String
  success : Bool
  error : Option String
  deriving DecidableEq, Repr

/-- Embeds deliverInApp: createNotification on the store with the payload
fields; a store failure propagates as a thrown error. -/
def deliverInApp (env : DeliveryEnv) (_payload : DeliveryPayload) : Except JsError Unit :=
  match env.storeResult with
  | none => Except.ok ()
  | some e => Except.error e

/-- Embeds getColorForType: the fixed lookup from notification type to
the discord embed color. -/
def getColorForType (type : NotificationType) : Nat :=
  match type with
  | NotificationType.CLIP_APPROVED => 0x22c55e
  | NotificationType.CAMPAIGN_ACCEPTED => 0x22c55e
  | NotificationType.PAYMENT_COMPLETED => 0x22c55e
  | NotificationType.PAYMENT_CREDITED => 0x22c55e
  | NotificationType.CLIP_REJECTED => 0xef4444
  | NotificationType.CAMPAIGN_REJECTED => 0xef4444
  | NotificationType.PAYMENT_ERROR => 0xef4444
  | NotificationType.CAMPAIGN_ENDING => 0xf59e0b
  | NotificationType.CAMPAIGN_ENDED => 0xf59e0b
  | NotificationType.PAYMENT_PROCESSING => 0xf59e0b
  | NotificationType.NEW_CAMPAIGN => 0x3b82f6
  | NotificationType.STUDIO_INVITE => 0x3b82f6
  | NotificationType.CLIP_MILESTONE => 0x3b82f6
  | NotificationType.SYSTEM_ALERT => 0x6b7280
  | NotificationType.DISCORD_DISCONNECTED => 0x6b7280
  | NotificationType.WALLET_NOT_CONFIGURED => 0x6b7280
  | NotificationType.PROFILE_INCOMPLETE => 0x6b7280

/-- The outbound HTTP request deliverDiscord posts when the endpoint is
configured: url, target user and embed fields. -/
structure DiscordRequest where
  url : String
  userId : String
  title : String
  description : String
  color : Nat
  linkField : Option String
  deriving DecidableEq, Repr

/-- Embeds deliverDiscord: when config.discordServiceUrl is falsy
(absent or empty) return without an outbound request, a no-op success;
otherwise post to the messages/dm endpoint, and wrap any failure of the
call in a new error whose message prefixes Discord delivery failed. The
first component records the outbound request made, none when skipped. -/
def deliverDiscord (env : DeliveryEnv) (payload : DeliveryPayload) :
    Option DiscordRequest × Except JsError Unit :=
  if strTruthy env.discordServiceUrl = false then (none, Except.ok ())
  else
    let req : DiscordRequest :=
      { url := env.discordServiceUrl.getD "" ++ "/messages/dm",
        userId := payload.userId,
        title := payload.title,
        description := payload.message.getD "",
        color := getColorForType payload.type,
        linkField := payload.link }
    match env.httpResult with
    | none => (some req, Except.ok ())
    | some e =>
      (some req, Except.error (JsError.jsError ("Discord delivery failed: " ++ messageOf e)))

/-- One iteration of the deliver loop: the switch on the channel string
inside the try block, with the catch converting a thrown error into a
failed outcome carrying the extracted message, and the default branch
recording the Unknown channel outcome. -/
def deliverChannel (env : DeliveryEnv) (payload : DeliveryPayload) (channel : String) :
    DeliveryOutcome :=
  match channel with
  | "in_app" =>
    match deliverInApp env payload with
    | Except.ok _ => { channel := channel, success := true, error := none }
    | Except.error e => { channel := channel, success := false, error := some (messageOf e) }
  | "discord" =>
    match (deliverDiscord env payload).2 with
    | Except.ok _ => { channel := channel, success := true, error := none }
    | Except.error e => { channel := channel, success := false, error := some (messageOf e) }
  | _ => { channel := channel, success := false, error := some "Unknown channel" }

/-- Embeds deliver: the for loop over the requested channels, pushing one
outcome per channel onto the results list. -/
def deliver (env : DeliveryEnv) (payload : DeliveryPayload) :
    List String → List DeliveryOutcome
  | [] => []
  | channel :: rest => deliverChannel env payload channel :: deliver env payload rest

/-- A notification-creation request as issued by an event handler: the
argument tuple of its createNotification call. -/
structure CreateRequest where
  userId : String
  type : NotificationType
  title : String
  message : Option String
  link : Option String
  metadata : Option (List (String × MetaVal))
  deriving DecidableEq, Repr

/-- Embeds the amount formatting of the handlers: the JavaScript
expression dividing the integer minor-unit amount by 100 and rendering
with toFixed 2, which for an integer amount is the quotient by 100, a
dot, and the remainder padded to two digits. -/
def toFixed2 (minorUnits : Nat) : String :=
  let cents := minorUnits % 100
  toString (minorUnits / 100) ++ "." ++
    (if cents < 10 then "0" ++ toString cents else toString cents)

/-- The payload of a clip.approved event, fields as used by the handler. -/
structure ClipApprovedPayload where
  clipId : String
  campaignId : String
  userId : String
  paymentAmount : Nat
  deriving DecidableEq, Repr

/-- Embeds the CLIP_APPROVED handler body mapping: the single
createNotification call it issues. -/
def handleClipApproved (p : ClipApprovedPayload) : CreateRequest :=
  { userId := p.userId,
    type := NotificationType.CLIP_APPROVED,
    title := "Clip Approved",
    message := some ("Your clip has been approved! You earned $" ++
      toFixed2 p.paymentAmount ++ "."),
    link := none,
    metadata := some [("clipId", MetaVal.s p.clipId),
      ("campaignId", MetaVal.s p.campaignId),
      ("paymentAmount", MetaVal.n p.paymentAmount)] }

/-- The payload of a campaign.status_changed event, fields as used by the
handler; changedBy is optional. -/
structure CampaignStatusChangedPayload where
  campaignId : String
  oldStatus : String
  newStatus : String
  changedBy : Option String
  deriving DecidableEq, Repr

/-- Embeds the CAMPAIGN_STATUS_CHANGED handler body mapping: the list of
createNotification calls it issues — one when newStatus is PAUSED and
payload.changedBy is truthy, none otherwise. -/
def handleCampaignStatusChanged (p : CampaignStatusChangedPayload) : List CreateRequest :=
  if p.newStatus == "PAUSED" then
    if strTruthy p.changedBy then
      [{ userId := p.changedBy.getD "",
         type := NotificationType.CAMPAIGN_ENDING,
         title := "Campaign Paused",
         message := some "Campaign has been paused.",
         link := none,
         metadata := some [("campaignId", MetaVal.s p.campaignId),
           ("oldStatus", MetaVal.s p.oldStatus),
           ("newStatus", MetaVal.s p.newStatus)] }]
    else []
  else []

/-- The payload of a campaign.ended event, fields as used by the handler. -/
structure CampaignEndedPayload where
  campaignId : String
  endReason : String
  totalClips : Nat
  totalViews : Nat
  deriving DecidableEq, Repr

/-- Embeds the CAMPAIGN_ENDED handler body mapping: the single
createSystemNotification call it issues, targeted at the literal system
actor. -/
def handleCampaignEnded (p : CampaignEndedPayload) : CreateRequest :=
  { userId := "system",
    type := NotificationType.SYSTEM_ALERT,
    title := "Campaign Ended",
    message := some ("Campaign ended (" ++ p.endReason ++ "). Total clips: " ++
      toString p.totalClips ++ ", Total views: " ++ toString p.totalViews ++ "."),
    link := none,
    metadata := none }

/-- An observable event in a handler invocation trace: a notification
creation attempt against the store (with its outcome), or the
acknowledgement of the inbound event to the Consumer Runtime. -/
inductive TraceEvent
  | createAttempt (succeeded : Bool)
  | ackEvent
  deriving DecidableEq, Repr

/-- Trace of one run of a handler body, as written in the source: when
the event maps to a creation (doCreate), attempt it — on success reach
the context.ack call; on a store failure the body throws before the ack.
When the event maps to no creation the body acknowledges directly. The
boolean result is whether the body completed without throwing. -/
def handlerBodyTrace (doCreate : Bool) (storeOk : Bool) : List TraceEvent × Bool :=
  if doCreate then
    if storeOk then ([TraceEvent.createAttempt true, TraceEvent.ackEvent], true)
    else ([TraceEvent.createAttempt false], false)
  else ([TraceEvent.ackEvent], true)

/-- Modelled from the spec: the withRetry wrapper of the Consumer Runtime
(the clipdeck events package, not part of this repository) re-invokes the
handler body on failure a bounded number of times before giving up and
still acknowledging the event. attemptOk gives the store outcome of each
numbered attempt; fuel bounds the re-invocations after the first. -/
def withRetryTrace (doCreate : Bool) (attemptOk : Nat → Bool) :
    Nat → Nat → List TraceEvent
  | attempt, fuel =>
    let run := handlerBodyTrace doCreate (attemptOk attempt)
    if run.2 then run.1
    else
      match fuel with
      | 0 => run.1 ++ [TraceEvent.ackEvent]
      | Nat.succ fuel => run.1 ++ withRetryTrace doCreate attemptOk (attempt + 1) fuel

/-! Helper lemmas shared by the delivery theorems. -/

/-- Helper: the deliver loop produces exactly the per-channel outcomes,
in order. -/
theorem deliver_eq_map (env : DeliveryEnv) (payload : DeliveryPayload)
    (channels : List String) :
    deliver env payload channels = channels.map (deliverChannel env payload) := by
  induction channels with
  | nil => rfl
  | cons c cs ih => simp [deliver, ih]

/-- Helper: a string with the discord failure prefix is never empty. -/
theorem discordPrefix_append_ne_empty (s : String) :
    ("Discord delivery failed: " ++ s) ≠ "" := by
  intro h
  have hlen := congrArg String.length h
  simp [String.length_append] at hlen
  exact absurd hlen.1 (by decide)

/-- C1: for every payload and ordered channel list, deliver returns
exactly one outcome per requested channel in request order, each outcome
determined by its own channel alone (the in_app outcome depends only on
the store result, so a discord failure cannot change it); in the concrete
scenario with the messaging endpoint configured but unreachable, in_app
still records success true while discord fails with a non-empty error. -/
theorem deliver_one_outcome_per_channel
    (env env' : DeliveryEnv) (payload : DeliveryPayload) (channels : List String) :
    deliver env payload channels = channels.map (deliverChannel env payload) ∧
    (env.storeResult = env'.storeResult →
      deliverChannel env payload "in_app" = deliverChannel env' payload "in_app") ∧
    deliver
      { discordServiceUrl := some "http://discord-service",
        storeResult := none,
        httpResult := some (JsError.jsError "connect ECONNREFUSED") }
      payload ["in_app", "discord"] =
      [{ channel := "in_app", success := true, error := none },
       { channel := "discord", success := false,
         error := some "Discord delivery failed: connect ECONNREFUSED" }] := by
  refine ⟨deliver_eq_map env payload channels, ?_, ?_⟩
  · intro h
    simp [deliverChannel, deliverInApp, h]
  · rfl

/-- Witness for C1 at concrete inputs. -/
theorem deliver_one_outcome_per_channel_witness :
    deliverChannel
      { discordServiceUrl := none, storeResult := none, httpResult := none }
      { userId := "u1", type := NotificationType.CLIP_APPROVED, title := "T",
        message := none, link := none, metadata := none } "in_app" =
    deliverChannel
      { discordServiceUrl := some "http://d", storeResult := none,
        httpResult := some JsError.nonError }
      { userId := "u1", type := NotificationType.CLIP_APPROVED, title := "T",
        message := none, link := none, metadata := none } "in_app" :=
  (deliver_one_outcome_per_channel
    { discordServiceUrl := none, storeResult := none, httpResult := none }
    { discordServiceUrl := some "http://d", storeResult := none,
      httpResult := some JsError.nonError }
    { userId := "u1", type := NotificationType.CLIP_APPROVED, title := "T",
      message := none, link := none, metadata := none } []).2.1 rfl

/-- Helper: an unrecognized channel identifier hits the default branch of
the deliver switch. -/
theorem deliverChannel_unknown (env : DeliveryEnv) (payload : DeliveryPayload)
    (channel : String) (h1 : channel ≠ "in_app") (h2 : channel ≠ "discord") :
    deliverChannel env payload channel =
      { channel := channel, success := false, error := some "Unknown channel" } := by
  unfold deliverChannel
  split
  · simp_all
  · simp_all
  · rfl

/-- C2: deliver never propagates an exception: it returns one outcome per
channel even when every channel fails, an unrecognized channel identifier
contributes the Unknown channel outcome, and every failed outcome carries
a non-empty error description (given that the store, when it throws an
Error, throws one with a non-empty message). -/
theorem deliver_converts_all_failures
    (env : DeliveryEnv) (payload : DeliveryPayload) (channels : List String)
    (hstore : ∀ m, env.storeResult = some (JsError.jsError m) → m ≠ "") :
    (deliver env payload channels).length = channels.length ∧
    (∀ channel ∈ channels, channel ≠ "in_app" → channel ≠ "discord" →
      ({ channel := channel, success := false, error := some "Unknown channel" } :
        DeliveryOutcome) ∈ deliver env payload channels) ∧
    (∀ o ∈ deliver env payload channels, o.success = false →
      ∃ e, o.error = some e ∧ e ≠ "") := by
  refine ⟨?_, ?_, ?_⟩
  · rw [deliver_eq_map]
    simp
  · intro channel hmem h1 h2
    rw [deliver_eq_map]
    rw [← deliverChannel_unknown env payload channel h1 h2]
    exact List.mem_map_of_mem _ hmem
  · intro o hmem hfail
    rw [deliver_eq_map] at hmem
    rcases List.mem_map.mp hmem with ⟨ch, _, rfl⟩
    by_cases hin : ch = "in_app"
    · subst hin
      cases hsr : env.storeResult with
      | none => simp [deliverChannel, deliverInApp, hsr] at hfail
      | some e =>
        cases e with
        | jsError m =>
          refine ⟨m, ?_, hstore m hsr⟩
          simp [deliverChannel, deliverInApp, hsr, messageOf]
        | nonError =>
          refine ⟨"Unknown error", ?_, by decide⟩
          simp [deliverChannel, deliverInApp, hsr, messageOf]
    · by_cases hd : ch = "discord"
      · subst hd
        by_cases hurl : strTruthy env.discordServiceUrl = false
        · simp [deliverChannel, deliverDiscord, hurl] at hfail
        · cases hhr : env.httpResult with
          | none => simp [deliverChannel, deliverDiscord, hurl, hhr] at hfail
          | some e =>
            refine ⟨"Discord delivery failed: " ++ messageOf e,
              ?_, discordPrefix_append_ne_empty _⟩
            simp [deliverChannel, deliverDiscord, hurl, hhr, messageOf]
      · rw [deliverChannel_unknown env payload ch hin hd]
        exact ⟨"Unknown channel", rfl, by decide⟩

/-- Witness for C2 at a concrete environment where every channel fails. -/
theorem deliver_converts_all_failures_witness :
    (deliver
      { discordServiceUrl := some "http://d",
        storeResult := some (JsError.jsError "db down"),
        httpResult := some (JsError.jsError "timeout") }
      { userId := "u1", type := NotificationType.CLIP_APPROVED, title := "T",
        message := none, link := none, metadata := none }
      ["in_app", "discord", "sms"]).length = ["in_app", "discord", "sms"].length :=
  (deliver_converts_all_failures
    { discordServiceUrl := some "http://d",
      storeResult := some (JsError.jsError "db down"),
      httpResult := some (JsError.jsError "timeout") }
    { userId := "u1", type := NotificationType.CLIP_APPROVED, title := "T",
      message := none, link := none, metadata := none }
    ["in_app", "discord", "sms"]
    (by intro m hm; simp at hm; subst hm; decide)).1

/-- C3: the discord channel is best-effort: with no truthy endpoint
configured, deliverDiscord makes no outbound request and succeeds as a
no-op; with an endpoint configured, a failing outbound call surfaces as
the discord channel outcome carrying the underlying error message behind
the wrapping prefix, and deliver still returns its full outcome list
rather than raising. -/
theorem discord_best_effort (env : DeliveryEnv) (payload : DeliveryPayload) :
    (strTruthy env.discordServiceUrl = false →
      deliverDiscord env payload = (none, Except.ok ()) ∧
      deliverChannel env payload "discord" =
        { channel := "discord", success := true, error := none }) ∧
    (∀ e, strTruthy env.discordServiceUrl = true → env.httpResult = some e →
      deliverChannel env payload "discord" =
        { channel := "discord", success := false,
          error := some ("Discord delivery failed: " ++ messageOf e) }) ∧
    (∀ channels, (deliver env payload channels).length = channels.length) := by
  refine ⟨?_, ?_, ?_⟩
  · intro h
    refine ⟨by simp [deliverDiscord, h], by simp [deliverChannel, deliverDiscord, h]⟩
  · intro e h he
    simp [deliverChannel, deliverDiscord, h, he, messageOf]
  · intro channels
    rw [deliver_eq_map]
    simp

/-- Witness for C3 at concrete environments: one unconfigured, one
configured with a timed-out call. -/
theorem discord_best_effort_witness :
    deliverDiscord
      { discordServiceUrl := none, storeResult := none, httpResult := none }
      { userId := "u1", type := NotificationType.CLIP_APPROVED, title := "T",
        message := none, link := none, metadata := none } = (none, Except.ok ()) ∧
    deliverChannel
      { discordServiceUrl := some "http://d", storeResult := none,
        httpResult := some (JsError.jsError "timeout of 5000ms exceeded") }
      { userId := "u1", type := NotificationType.CLIP_APPROVED, title := "T",
        message := none, link := none, metadata := none } "discord" =
      { channel := "discord", success := false,
        error := some "Discord delivery failed: timeout of 5000ms exceeded" } :=
  ⟨((discord_best_effort
      { discordServiceUrl := none, storeResult := none, httpResult := none }
      { userId := "u1", type := NotificationType.CLIP_APPROVED, title := "T",
        message := none, link := none, metadata := none }).1 (by decide)).1,
   (discord_best_effort
      { discordServiceUrl := some "http://d", storeResult := none,
        httpResult := some (JsError.jsError "timeout of 5000ms exceeded") }
      { userId := "u1", type := NotificationType.CLIP_APPROVED, title := "T",
        message := none, link := none, metadata := none }).2.1
      (JsError.jsError "timeout of 5000ms exceeded") (by decide) rfl⟩

/-- C4 counterexample: a campaign status changed payload whose newStatus
is PAUSED and whose changedBy is present (some value) but empty; the
condition of the claim holds, yet the handler creates no notification,
because the source tests changedBy for JavaScript truthiness. -/
theorem campaignStatusChanged_counterexample :
    (CampaignStatusChangedPayload.mk "c1" "ACTIVE" "PAUSED" (some "")).newStatus =
      "PAUSED" ∧
    (CampaignStatusChangedPayload.mk "c1" "ACTIVE" "PAUSED" (some "")).changedBy.isSome =
      true ∧
    handleCampaignStatusChanged
      (CampaignStatusChangedPayload.mk "c1" "ACTIVE" "PAUSED" (some "")) = [] :=
  ⟨rfl, rfl, rfl⟩

/-- C4 amended: a notification is created if and only if newStatus equals
PAUSED and changedBy is present and non-empty; then the handler issues
exactly one creation, of type CAMPAIGN_ENDING titled Campaign Paused, for
the changedBy user; every other transition issues none. -/
theorem campaignStatusChanged_spec (p : CampaignStatusChangedPayload) :
    (∀ u, p.changedBy = some u → u ≠ "" → p.newStatus = "PAUSED" →
      handleCampaignStatusChanged p =
        [{ userId := u, type := NotificationType.CAMPAIGN_ENDING,
           title := "Campaign Paused", message := some "Campaign has been paused.",
           link := none,
           metadata := some [("campaignId", MetaVal.s p.campaignId),
             ("oldStatus", MetaVal.s p.oldStatus),
             ("newStatus", MetaVal.s p.newStatus)] }]) ∧
    ((p.newStatus ≠ "PAUSED" ∨ p.changedBy = none ∨ p.changedBy = some "") →
      handleCampaignStatusChanged p = []) := by
  constructor
  · intro u hu hne hs
    simp [handleCampaignStatusChanged, hs, hu, strTruthy, hne]
  · intro h
    rcases h with h | h | h
    · simp [handleCampaignStatusChanged, h]
    · simp [handleCampaignStatusChanged, h, strTruthy]
    · simp [handleCampaignStatusChanged, h, strTruthy]

/-- Witness for C4: concrete paused transition with a non-empty changedBy
creates the one notification; a transition to ACTIVE creates none. -/
theorem campaignStatusChanged_spec_witness :
    handleCampaignStatusChanged
      (CampaignStatusChangedPayload.mk "c1" "ACTIVE" "PAUSED" (some "owner1")) =
      [{ userId := "owner1", type := NotificationType.CAMPAIGN_ENDING,
         title := "Campaign Paused", message := some "Campaign has been paused.",
         link := none,
         metadata := some [("campaignId", MetaVal.s "c1"),
           ("oldStatus", MetaVal.s "ACTIVE"),
           ("newStatus", MetaVal.s "PAUSED")] }] ∧
    handleCampaignStatusChanged
      (CampaignStatusChangedPayload.mk "c2" "PAUSED" "ACTIVE" (some "owner1")) = [] :=
  ⟨(campaignStatusChanged_spec
      (CampaignStatusChangedPayload.mk "c1" "ACTIVE" "PAUSED" (some "owner1"))).1
      "owner1" rfl (by decide) rfl,
   (campaignStatusChanged_spec
      (CampaignStatusChangedPayload.mk "c2" "PAUSED" "ACTIVE" (some "owner1"))).2
      (Or.inl (by decide))⟩

/-- C5: the clip approved message embeds the payout amount formatted from
integer minor units — quotient by 100, a dot, the remainder rendered in
exactly two digits — prefixed by a dollar sign; concretely, for
paymentAmount 2550 the message contains the substring with 25.50. -/
theorem clipApproved_payout_format (p : ClipApprovedPayload) :
    (∃ pre post, (handleClipApproved p).message =
      some (pre ++ ("$" ++ (toString (p.paymentAmount / 100) ++ "." ++
        (if p.paymentAmount % 100 < 10 then "0" ++ toString (p.paymentAmount % 100)
         else toString (p.paymentAmount % 100)))) ++ post)) ∧
    (handleClipApproved { clipId := "c1", campaignId := "k1", userId := "u1",
                          paymentAmount := 2550 }).message =
      some ("Your clip has been approved! You earned " ++ "$25.50" ++ ".") := by
  constructor
  · exact ⟨"Your clip has been approved! You earned ", ".", rfl⟩
  · decide

/-- Helper: the retry-then-acknowledge wrapper acknowledges exactly once
and as the final trace event, whatever the per-attempt outcomes. -/
theorem withRetryTrace_ack (doCreate : Bool) (attemptOk : Nat → Bool) :
    ∀ fuel attempt : Nat,
      (withRetryTrace doCreate attemptOk attempt fuel).count TraceEvent.ackEvent = 1 ∧
      (withRetryTrace doCreate attemptOk attempt fuel).getLast? =
        some TraceEvent.ackEvent := by
  intro fuel
  induction fuel with
  | zero =>
    intro attempt
    cases doCreate <;> cases hok : attemptOk attempt <;>
      simp [withRetryTrace, handlerBodyTrace, hok]
  | succ fuel ih =>
    intro attempt
    cases doCreate <;> cases hok : attemptOk attempt <;>
      simp [withRetryTrace, handlerBodyTrace, hok]
    · constructor
      · have := (ih (attempt + 1)).1
        simp [List.count_cons, this]
      · have hlast := (ih (attempt + 1)).2
        cases hl : withRetryTrace true attemptOk (attempt + 1) fuel with
        | nil => rw [hl] at hlast; simp at hlast
        | cons y ys =>
          rw [hl] at hlast
          rw [List.getLast?_cons_cons]
          exact hlast


/-- C6: for every handler shape (an event mapping to a creation or to
none) and every retry bound and sequence of per-attempt store outcomes,
the wrapped handler acknowledges the event exactly once and as the final
trace event — that is, only after the delivery attempt activity has
completed, and regardless of whether the creation attempts succeeded. -/
theorem handler_acks_once_after_delivery (doCreate : Bool) (attemptOk : Nat → Bool)
    (fuel : Nat) :
    (withRetryTrace doCreate attemptOk 0 fuel).count TraceEvent.ackEvent = 1 ∧
    (withRetryTrace doCreate attemptOk 0 fuel).getLast? = some TraceEvent.ackEvent :=
  withRetryTrace_ack doCreate attemptOk fuel 0

/-- Helper: under distinct row ids, findUnique by id returns exactly the
member carrying that id. -/
theorem find_by_id (store : Store) (nid : String) (n : Notification)
    (hnd : (store.map (fun m => m.id)).Nodup) (hn : n ∈ store) (hid : n.id = nid) :
    store.find? (fun m => m.id == nid) = some n := by
  induction store with
  | nil => cases hn
  | cons h t ih =>
    rw [List.map_cons, List.nodup_cons] at hnd
    rcases List.mem_cons.mp hn with rfl | hmem
    · simp [List.find?, hid]
    · have hne : (h.id == nid) = false := by
        rw [beq_eq_false_iff_ne]
        intro he
        exact hnd.1 (by rw [he, ← hid]; exact List.mem_map_of_mem _ hmem)
      simp only [List.find?, hne]
      exact ih hnd.2 hmem

/-- C7: markAsRead returns notFound when no row carries the id and
forbidden when the row is owned by another user, leaving the store
untouched in both cases; otherwise it flips exactly that row to read,
returns the updated record, and leaves every other row unchanged. -/
theorem markAsRead_spec (store : Store) (caller nid : String)
    (hnd : (store.map (fun m => m.id)).Nodup) :
    ((∀ n ∈ store, n.id ≠ nid) →
      markAsRead store caller nid = (store, Except.error ServiceErr.notFound)) ∧
    (∀ n ∈ store, n.id = nid → n.userId ≠ caller →
      markAsRead store caller nid = (store, Except.error ServiceErr.forbidden)) ∧
    (∀ n ∈ store, n.id = nid → n.userId = caller →
      (markAsRead store caller nid).2 = Except.ok { n with isRead := true } ∧
      { n with isRead := true } ∈ (markAsRead store caller nid).1 ∧
      ∀ m ∈ store, m.id ≠ nid → m ∈ (markAsRead store caller nid).1) := by
  refine ⟨?_, ?_, ?_⟩
  · intro habs
    have hfind : store.find? (fun m => m.id == nid) = none := by
      rw [List.find?_eq_none]
      intro a ha
      simp [habs a ha]
    simp [markAsRead, hfind]
  · intro n hn hid hu
    rw [markAsRead, find_by_id store nid n hnd hn hid]
    simp [hu]
  · intro n hn hid hu
    have hfind := find_by_id store nid n hnd hn hid
    have hstore1 : (markAsRead store caller nid).1 =
        store.map (fun m => if m.id == nid then { m with isRead := true } else m) := by
      simp [markAsRead, hfind, hu]
    have hstore2 : (markAsRead store caller nid).2 =
        Except.ok { n with isRead := true } := by
      simp [markAsRead, hfind, hu]
    refine ⟨hstore2, ?_, ?_⟩
    · rw [hstore1]
      have heq : ({ n with isRead := true } : Notification) =
          (fun m => if m.id == nid then { m with isRead := true } else m) n := by
        simp [hid]
      rw [heq]
      exact List.mem_map_of_mem _ hn
    · intro m hm hmne
      rw [hstore1]
      have heq : m = (fun x => if x.id == nid then { x with isRead := true } else x) m := by
        simp [hmne]
      rw [heq]
      exact List.mem_map_of_mem _ hm

/-- Witness for C7: marking a notification owned by another user returns
forbidden and leaves the stored record unaltered. -/
theorem markAsRead_spec_witness :
    markAsRead [Notification.mk "a" "u2" NotificationType.SYSTEM_ALERT "T"
        none none none false 0] "u1" "a" =
      ([Notification.mk "a" "u2" NotificationType.SYSTEM_ALERT "T" none none none false 0],
       Except.error ServiceErr.forbidden) :=
  (markAsRead_spec
      [Notification.mk "a" "u2" NotificationType.SYSTEM_ALERT "T" none none none false 0]
      "u1" "a" (by decide)).2.1
    (Notification.mk "a" "u2" NotificationType.SYSTEM_ALERT "T" none none none false 0)
    (by simp) rfl (by decide)

/-- C8: markAllAsRead flips exactly the previously-unread rows of the
caller to read, leaves every row of any other user (and every
already-read row) unchanged in place, returns the count of rows it
flipped, and afterwards the caller has unread count zero. -/
theorem markAllAsRead_spec (store : Store) (caller : String) :
    ((markAllAsRead store caller).1).length = store.length ∧
    (∀ (i : Nat) (n : Notification), store[i]? = some n →
      ((markAllAsRead store caller).1)[i]? =
        some (if n.userId = caller ∧ n.isRead = false
          then { n with isRead := true } else n)) ∧
    (markAllAsRead store caller).2 =
      (store.filter (fun n => n.userId == caller && !n.isRead)).length ∧
    getUnreadCount (markAllAsRead store caller).1 caller = 0 := by
  refine ⟨by simp [markAllAsRead], ?_, rfl, ?_⟩
  · intro i n h
    simp only [markAllAsRead, List.getElem?_map, h, Option.map_some']
    by_cases h1 : n.userId = caller <;> by_cases h2 : n.isRead <;> simp [h1, h2]
  · have hnil : ((markAllAsRead store caller).1).filter
        (fun n => n.userId == caller && !n.isRead) = [] := by
      rw [List.filter_eq_nil_iff]
      intro a ha
      simp only [markAllAsRead] at ha
      rcases List.mem_map.mp ha with ⟨n, _, rfl⟩
      by_cases h1 : n.userId = caller <;> by_cases h2 : n.isRead <;> simp [h1, h2]
    simp [getUnreadCount, hnil]

/-- Witness for C8: with one unread row of the caller and one unread row
of another user, the first row is flipped in place and the second left
unchanged. -/
theorem markAllAsRead_spec_witness :
    ((markAllAsRead
        [Notification.mk "a" "u1" NotificationType.SYSTEM_ALERT "T" none none none false 0,
         Notification.mk "b" "u2" NotificationType.SYSTEM_ALERT "T" none none none false 1]
        "u1").1)[1]? =
      some (Notification.mk "b" "u2" NotificationType.SYSTEM_ALERT "T" none none none false 1) := by
  have h := (markAllAsRead_spec
      [Notification.mk "a" "u1" NotificationType.SYSTEM_ALERT "T" none none none false 0,
       Notification.mk "b" "u2" NotificationType.SYSTEM_ALERT "T" none none none false 1]
      "u1").2.1 1
    (Notification.mk "b" "u2" NotificationType.SYSTEM_ALERT "T" none none none false 1) rfl
  simpa using h

/-- Helper: under distinct row ids, two members with the same id are the
same row. -/
theorem eq_of_mem_id (store : Store) (a b : Notification)
    (hnd : (store.map (fun m => m.id)).Nodup) (ha : a ∈ store) (hb : b ∈ store)
    (hid : a.id = b.id) : a = b := by
  have h1 := find_by_id store a.id a hnd ha rfl
  have h2 := find_by_id store a.id b hnd hb hid.symm
  rw [h1] at h2
  exact Option.some.inj h2

/-- The store-touching operations of the service, tagged by the calling
user where the API requires one; create carries the id and timestamp the
store assigns to the fresh row. -/
inductive Op
  | create (newId : String) (now : Nat) (req : CreateRequest)
  | list (limit offset : Nat)
  | unreadCount
  | markRead (notificationId : String)
  | markAllRead
  | delete (notificationId : String)

/-- The store contents after one operation run by the given caller; the
read-only operations leave the store unchanged. -/
def applyOp (caller : String) (op : Op) (store : Store) : Store :=
  match op with
  | Op.create newId now req =>
    (createNotification store newId now req.userId req.type req.title
      req.message req.link req.metadata).1
  | Op.list _ _ => store
  | Op.unreadCount => store
  | Op.markRead nid => (markAsRead store caller nid).1
  | Op.markAllRead => (markAllAsRead store caller).1
  | Op.delete nid => (deleteNotification store caller nid).1

/-- C9: across every operation of the service, each existing row either
survives unchanged, or survives with only its isRead field set to true
and its owner equal to the caller, or is removed with its owner equal to
the caller: no field other than isRead is ever altered, userId is never
reassigned, and a row is mutated or deleted only in an operation invoked
by its owning user. -/
theorem store_owner_invariant (caller : String) (op : Op) (store : Store)
    (hnd : (store.map (fun m => m.id)).Nodup) :
    ∀ n ∈ store,
      n ∈ applyOp caller op store ∨
      ({ n with isRead := true } ∈ applyOp caller op store ∧ n.userId = caller) ∨
      ((∀ m ∈ applyOp caller op store, m.id ≠ n.id) ∧ n.userId = caller) := by
  intro n hn
  cases op with
  | create newId now req =>
    left
    simp only [applyOp, createNotification]
    exact List.mem_append_left _ hn
  | list l o => exact Or.inl hn
  | unreadCount => exact Or.inl hn
  | markRead nid =>
    by_cases hfound : ∃ n0 ∈ store, n0.id = nid
    · rcases hfound with ⟨n0, hn0, hid0⟩
      have hfind := find_by_id store nid n0 hnd hn0 hid0
      by_cases hown : n0.userId = caller
      · have hstore1 : applyOp caller (Op.markRead nid) store =
            store.map (fun m => if m.id == nid then { m with isRead := true } else m) := by
          simp [applyOp, markAsRead, hfind, hown]
        by_cases hni : n.id = nid
        · have hnn0 : n = n0 := eq_of_mem_id store n n0 hnd hn hn0 (by rw [hni, hid0])
          right; left
          refine ⟨?_, by rw [hnn0]; exact hown⟩
          rw [hstore1]
          have heq : ({ n with isRead := true } : Notification) =
              (fun m => if m.id == nid then { m with isRead := true } else m) n := by
            simp [hni]
          rw [heq]
          exact List.mem_map_of_mem _ hn
        · left
          rw [hstore1]
          have heq : n = (fun m => if m.id == nid then { m with isRead := true } else m) n := by
            simp [hni]
          rw [heq]
          exact List.mem_map_of_mem _ hn
      · left
        have : applyOp caller (Op.markRead nid) store = store := by
          simp [applyOp, markAsRead, hfind, hown]
        rw [this]
        exact hn
    · left
      push_neg at hfound
      have hfind : store.find? (fun m => m.id == nid) = none := by
        rw [List.find?_eq_none]
        intro a ha
        simp [hfound a ha]
      have : applyOp caller (Op.markRead nid) store = store := by
        simp [applyOp, markAsRead, hfind]
      rw [this]
      exact hn
  | markAllRead =>
    have hstore1 : applyOp caller Op.markAllRead store =
        store.map (fun m => if m.userId == caller && !m.isRead
          then { m with isRead := true } else m) := by
      simp [applyOp, markAllAsRead]
    by_cases h1 : n.userId = caller
    · by_cases h2 : n.isRead
      · left
        rw [hstore1]
        have heq : n = (fun m => if m.userId == caller && !m.isRead
            then { m with isRead := true } else m) n := by
          simp [h1, h2]
        rw [heq]
        exact List.mem_map_of_mem _ hn
      · right; left
        refine ⟨?_, h1⟩
        rw [hstore1]
        have heq : ({ n with isRead := true } : Notification) =
            (fun m => if m.userId == caller && !m.isRead
              then { m with isRead := true } else m) n := by
          simp [h1, h2]
        rw [heq]
        exact List.mem_map_of_mem _ hn
    · left
      rw [hstore1]
      have heq : n = (fun m => if m.userId == caller && !m.isRead
          then { m with isRead := true } else m) n := by
        simp [h1]
      rw [heq]
      exact List.mem_map_of_mem _ hn
  | delete nid =>
    by_cases hfound : ∃ n0 ∈ store, n0.id = nid
    · rcases hfound with ⟨n0, hn0, hid0⟩
      have hfind := find_by_id store nid n0 hnd hn0 hid0
      by_cases hown : n0.userId = caller
      · have hstore1 : applyOp caller (Op.delete nid) store =
            store.filter (fun m => m.id != nid) := by
          simp [applyOp, deleteNotification, hfind, hown]
        by_cases hni : n.id = nid
        · have hnn0 : n = n0 := eq_of_mem_id store n n0 hnd hn hn0 (by rw [hni, hid0])
          right; right
          refine ⟨?_, by rw [hnn0]; exact hown⟩
          intro m hm
          rw [hstore1] at hm
          have := List.of_mem_filter hm
          simp only [bne_iff_ne, ne_eq] at this
          rw [hni]
          exact this
        · left
          rw [hstore1]
          exact List.mem_filter.mpr ⟨hn, by simp [hni]⟩
      · left
        have : applyOp caller (Op.delete nid) store = store := by
          simp [applyOp, deleteNotification, hfind, hown]
        rw [this]
        exact hn
    · left
      push_neg at hfound
      have hfind : store.find? (fun m => m.id == nid) = none := by
        rw [List.find?_eq_none]
        intro a ha
        simp [hfound a ha]
      have : applyOp caller (Op.delete nid) store = store := by
        simp [applyOp, deleteNotification, hfind]
      rw [this]
      exact hn

/-- Witness for C9: one concrete unread row of the caller, run through
markAllAsRead. -/
theorem store_owner_invariant_witness :
    Notification.mk "a" "u1" NotificationType.SYSTEM_ALERT "T" none none none false 0 ∈
      applyOp "u1" Op.markAllRead
        [Notification.mk "a" "u1" NotificationType.SYSTEM_ALERT "T" none none none false 0] ∨
    ({ Notification.mk "a" "u1" NotificationType.SYSTEM_ALERT "T" none none none false 0 with
        isRead := true } ∈
      applyOp "u1" Op.markAllRead
        [Notification.mk "a" "u1" NotificationType.SYSTEM_ALERT "T" none none none false 0] ∧
      (Notification.mk "a" "u1" NotificationType.SYSTEM_ALERT "T" none none none false 0).userId =
        "u1") ∨
    ((∀ m ∈ applyOp "u1" Op.markAllRead
        [Notification.mk "a" "u1" NotificationType.SYSTEM_ALERT "T" none none none false 0],
        m.id ≠
          (Notification.mk "a" "u1" NotificationType.SYSTEM_ALERT "T" none none none false 0).id) ∧
      (Notification.mk "a" "u1" NotificationType.SYSTEM_ALERT "T" none none none false 0).userId =
        "u1") :=
  store_owner_invariant "u1" Op.markAllRead
    [Notification.mk "a" "u1" NotificationType.SYSTEM_ALERT "T" none none none false 0]
    (by decide)
    (Notification.mk "a" "u1" NotificationType.SYSTEM_ALERT "T" none none none false 0)
    (by simp)

/-- C10: the total field of the listing result equals the count of all
rows of the user in the store, for every limit and offset — so it is
independent of the page bounds and is not the number of items in the
returned page: concretely, with two rows of the user and limit one, the
page holds one item while total is two. -/
theorem getNotifications_total_counts_all (store : Store) (u : String)
    (limit offset : Nat) :
    (getNotifications store u limit offset).total =
      (store.filter (fun n => n.userId == u)).length ∧
    (getNotifications store u limit offset).total =
      (getNotifications store u 20 0).total ∧
    (getNotifications
      [Notification.mk "a" "u1" NotificationType.SYSTEM_ALERT "T" none none none false 0,
       Notification.mk "b" "u1" NotificationType.SYSTEM_ALERT "T" none none none false 1]
      "u1" 1 0).notifications.length = 1 ∧
    (getNotifications
      [Notification.mk "a" "u1" NotificationType.SYSTEM_ALERT "T" none none none false 0,
       Notification.mk "b" "u1" NotificationType.SYSTEM_ALERT "T" none none none false 1]
      "u1" 1 0).total = 2 := by
  refine ⟨rfl, rfl, by decide, by decide⟩

end NotificationService
